import Mathlib

/-!
Verification development for the TorchToONNX-FaaS handler.

The Python sources (`handler.py`, `utils.py`) are shallowly embedded:
pure string processing is translated directly; calls into external
libraries (MinIO, torch, onnx, importlib, json) are represented by
explicit oracle records whose fields give the outcome of each external
call; Python exceptions are values of an explicit error type threaded
through `Except`.
-/

deriving instance DecidableEq for Except

namespace TorchToOnnx

/-- Python exception kinds raised by the handler and its helpers. -/
inductive PyErr where
  | keyError (key : String)
  | valueError (msg : String)
  | jsonDecodeError (msg : String)
  | connectionError (msg : String)
  | fileNotFoundError (msg : String)
  | importError (msg : String)
  | attributeError (msg : String)
  | typeError (msg : String)
  | s3Error (msg : String)
  | otherError (msg : String)
deriving Repr, DecidableEq

/-- Models Python `str(e)` for the exceptions above.  `str` of a `KeyError`
is the `repr` of the missing key, i.e. the key in single quotes. -/
def errStr : PyErr → String
  | .keyError k => "'" ++ k ++ "'"
  | .valueError m => m
  | .jsonDecodeError m => m
  | .connectionError m => m
  | .fileNotFoundError m => m
  | .importError m => m
  | .attributeError m => m
  | .typeError m => m
  | .s3Error m => m
  | .otherError m => m

/- ============================================================
   Character / string utilities (ASCII models of Python builtins)
   ============================================================ -/

/-- ASCII whitespace stripped by Python `str.strip()`. -/
def isPyWs (c : Char) : Bool :=
  c = ' ' || c = '\t' || c = '\n' || c = '\r' || c.toNat = 11 || c.toNat = 12

/-- Whitespace on which `shlex` splits tokens. -/
def isShlexWs (c : Char) : Bool :=
  c = ' ' || c = '\t' || c = '\r' || c = '\n'

def isAsciiDigitCh (c : Char) : Bool :=
  48 ≤ c.toNat && c.toNat ≤ 57

def dropWsLeft : List Char → List Char
  | [] => []
  | c :: cs => if isPyWs c then dropWsLeft cs else c :: cs

def stripChars (cs : List Char) : List Char :=
  ((dropWsLeft (dropWsLeft cs).reverse).reverse)

/-- Models Python `str.strip()` on ASCII strings. -/
def pyStrip (s : String) : String := ⟨stripChars s.data⟩

/-- Models Python `str.isdigit()` on ASCII strings: nonempty and all
characters are decimal digits.  (Unicode digit categories are not
modelled; all inputs of interest here are ASCII.) -/
def pyIsDigit (s : String) : Bool :=
  !s.data.isEmpty && s.data.all isAsciiDigitCh

def digitsVal (cs : List Char) : Nat :=
  cs.foldl (fun a c => a * 10 + (c.toNat - 48)) 0

/-- Models Python `int(s)` for a string of decimal digits. -/
def pyIntOfDigits (s : String) : Int := (digitsVal s.data : Int)

def toLowerCh (c : Char) : Char :=
  if 65 ≤ c.toNat ∧ c.toNat ≤ 90 then Char.ofNat (c.toNat + 32) else c

/- ============================================================
   shlex.split (posix mode, whitespace_split, no comments)
   ============================================================ -/

/-- States of the `shlex` scanner: between tokens, inside a token,
inside single quotes, inside double quotes, after a backslash outside
quotes, after a backslash inside double quotes. -/
inductive ShlexState where
  | blank | word | squote | dquote | esc | escDq
deriving Repr, DecidableEq

/-- One-pass scanner modelling CPython `shlex.split(s)` (posix rules,
whitespace splitting, comments disabled).  `tok` is the current token
accumulated in reverse; `acc` the emitted tokens in reverse. -/
def shlexRun : List Char → ShlexState → List Char → List String → Except PyErr (List String)
  | [], .blank, _, acc => .ok acc.reverse
  | [], .word, tok, acc => .ok ((String.mk tok.reverse) :: acc).reverse
  | [], .squote, _, _ => .error (.valueError "No closing quotation")
  | [], .dquote, _, _ => .error (.valueError "No closing quotation")
  | [], .esc, _, _ => .error (.valueError "No escaped character")
  | [], .escDq, _, _ => .error (.valueError "No escaped character")
  | c :: cs, .blank, tok, acc =>
      if isShlexWs c then shlexRun cs .blank tok acc
      else if c = '\'' then shlexRun cs .squote [] acc
      else if c = '"' then shlexRun cs .dquote [] acc
      else if c = '\\' then shlexRun cs .esc [] acc
      else shlexRun cs .word [c] acc
  | c :: cs, .word, tok, acc =>
      if isShlexWs c then shlexRun cs .blank [] (String.mk tok.reverse :: acc)
      else if c = '\'' then shlexRun cs .squote tok acc
      else if c = '"' then shlexRun cs .dquote tok acc
      else if c = '\\' then shlexRun cs .esc tok acc
      else shlexRun cs .word (c :: tok) acc
  | c :: cs, .squote, tok, acc =>
      if c = '\'' then shlexRun cs .word tok acc
      else shlexRun cs .squote (c :: tok) acc
  | c :: cs, .dquote, tok, acc =>
      if c = '"' then shlexRun cs .word tok acc
      else if c = '\\' then shlexRun cs .escDq tok acc
      else shlexRun cs .dquote (c :: tok) acc
  | c :: cs, .esc, tok, acc => shlexRun cs .word (c :: tok) acc
  | c :: cs, .escDq, tok, acc =>
      if c = '"' ∨ c = '\\' then shlexRun cs .dquote (c :: tok) acc
      else shlexRun cs .dquote (c :: '\\' :: tok) acc

/-- Models `shlex.split(s)` as used at utils.py line 62. -/
def shlexSplit (s : String) : Except PyErr (List String) :=
  shlexRun s.data .blank [] []

/- ============================================================
   Python float() model
   ============================================================ -/

/-- Abstract value of a Python float.  A finite value is kept exactly as
mant times ten to the exp10 (IEEE-754 rounding of the decimal literal to
the nearest double is not modelled; no claim depends on rounding). -/
inductive PyFloat where
  | finite (mant : Int) (exp10 : Int)
  | posInf
  | negInf
  | nan
deriving Repr, DecidableEq

/-- A value produced by `parse_dynamic_args` coercion: Python int, float
or str. -/
inductive PyObj where
  | intVal (n : Int)
  | floatVal (f : PyFloat)
  | strVal (s : String)
deriving Repr, DecidableEq

/-- Consumes a maximal leading digit group, allowing single underscores
strictly between digits (CPython numeric-literal rule).  Returns the
digits with underscores removed, and the unconsumed rest. -/
def digitGroupAux : List Char → List Char → (List Char × List Char)
  | acc, [] => (acc.reverse, [])
  | acc, c :: cs =>
      if isAsciiDigitCh c then digitGroupAux (c :: acc) cs
      else if c = '_' then
        match cs with
        | d :: cs' =>
            if isAsciiDigitCh d then digitGroupAux (d :: acc) cs'
            else (acc.reverse, c :: cs)
        | [] => (acc.reverse, [c])
      else (acc.reverse, c :: cs)

def digitGroup (cs : List Char) : (List Char × List Char) := digitGroupAux [] cs

/-- Consumes an optional leading sign; returns whether it was a minus. -/
def parseSign : List Char → (Bool × List Char)
  | '+' :: cs => (false, cs)
  | '-' :: cs => (true, cs)
  | cs => (false, cs)

/-- Models CPython `float(s)` applied to an ASCII string: strips
whitespace, accepts an optional sign followed by inf, infinity, nan
(case-insensitive) or a decimal literal with optional fraction and
exponent, underscores only between digits.  Returns none when `float`
raises ValueError. -/
def pyFloatParse (s : String) : Option PyFloat :=
  let cs := stripChars s.data
  let (neg, cs1) := parseSign cs
  let low := cs1.map toLowerCh
  if low = "inf".data ∨ low = "infinity".data then
    some (if neg then .negInf else .posInf)
  else if low = "nan".data then some .nan
  else
    let (d1, r1) := digitGroup cs1
    let (hadDot, d2, r2) :=
      match r1 with
      | '.' :: rest =>
          let (g, r) := digitGroup rest
          (true, g, r)
      | _ => (false, ([] : List Char), r1)
    if d1 = [] ∧ d2 = [] then none
    else if !hadDot ∧ d1 = [] then none
    else
      let mantNat := digitsVal (d1 ++ d2)
      let mant : Int := if neg then -(mantNat : Int) else (mantNat : Int)
      match r2 with
      | [] => some (.finite mant (-(d2.length : Int)))
      | e :: rest =>
          if toLowerCh e = 'e' then
            let (eneg, rest1) := parseSign rest
            let (d3, r3) := digitGroup rest1
            if d3 = [] ∨ r3 ≠ [] then none
            else
              let ev : Int := if eneg then -((digitsVal d3 : Nat) : Int) else ((digitsVal d3 : Nat) : Int)
              some (.finite mant (ev - (d2.length : Int)))
          else none

/- ============================================================
   Association-list models of Python dicts (string keys)
   ============================================================ -/

/-- Python dict assignment `d[k] = v`: updates the value in place when
the key exists, otherwise appends (insertion order preserved). -/
def alistInsert {β : Type} : List (String × β) → String → β → List (String × β)
  | [], k, v => [(k, v)]
  | (k', v') :: rest, k, v =>
      if k' = k then (k', v) :: rest else (k', v') :: alistInsert rest k v

/-- Python dict lookup on an alist whose keys are unique (first match). -/
def alistGet {β : Type} : List (String × β) → String → Option β
  | [], _ => none
  | (k', v) :: rest, k => if k' = k then some v else alistGet rest k

abbrev StrDict := List (String × String)
abbrev PyDict := List (String × PyObj)

/- ============================================================
   utils.parse_dynamic_args
   ============================================================ -/

/-- First pass of `parse_dynamic_args` (utils.py lines 64-69): for each
token, split at the first `=` and store the stripped key and value;
raise ValueError for a token without `=`. -/
def splitEqAux : List Char → List Char → Option (List Char × List Char)
  | _, [] => none
  | acc, '=' :: cs => some (acc.reverse, cs)
  | acc, c :: cs => splitEqAux (c :: acc) cs

/-- Models `arg.split("=", 1)` guarded by `"=" in arg`: some (key, value)
when the token contains an `=`, none otherwise. -/
def pySplitEq (s : String) : Option (String × String) :=
  (splitEqAux [] s.data).map fun p => (String.mk p.1, String.mk p.2)

def collectArgs : List String → StrDict → Except PyErr StrDict
  | [], d => .ok d
  | t :: ts, d =>
      match pySplitEq t with
      | some (k, v) => collectArgs ts (alistInsert d (pyStrip k) (pyStrip v))
      | none => .error (.valueError ("Invalid argument format: '" ++ t ++ "'. Expected 'key=value'."))

/-- Second pass of `parse_dynamic_args` (utils.py lines 71-78): a value
of only digits becomes int, else try float, else keep the string. -/
def coerceValue (v : String) : PyObj :=
  if pyIsDigit v then .intVal (pyIntOfDigits v)
  else
    match pyFloatParse v with
    | some f => .floatVal f
    | none => .strVal v

def coercePass (d : StrDict) : PyDict :=
  d.map fun p => (p.1, coerceValue p.2)

/-- utils.py `parse_dynamic_args`: shlex-split the string, collect
key=value pairs (ValueError on a token without `=`), then coerce each
value. -/
def parse_dynamic_args (args : String) : Except PyErr PyDict :=
  match shlexSplit args with
  | .error e => .error e
  | .ok toks =>
      match collectArgs toks [] with
      | .error e => .error e
      | .ok d => .ok (coercePass d)

example : parse_dynamic_args "a=1 b=2.5 c=hello" =
    .ok [("a", .intVal 1), ("b", .floatVal (.finite 25 (-1))), ("c", .strVal "hello")] := by
  decide

example : parse_dynamic_args "" = .ok [] := by decide

example : parse_dynamic_args "x=1 x=2" = .ok [("x", .intVal 2)] := by decide

example : parse_dynamic_args "foo" =
    .error (.valueError "Invalid argument format: 'foo'. Expected 'key=value'.") := by decide

/- ============================================================
   On-disk ONNX artifact model and ensure_single_file_onnx
   ============================================================ -/

/-- The `data_location` field of an ONNX TensorProto. -/
inductive DataLoc where
  | defaultLoc | externalLoc
deriving Repr, DecidableEq

/-- An initializer tensor of an ONNX graph: whether the proto has an
explicit `data_location` field, and its value. -/
structure OnnxTensor where
  hasDataLocationField : Bool
  dataLocation : DataLoc
deriving Repr, DecidableEq

/-- An ONNX graph as far as `ensure_single_file_onnx` inspects it: the
metadata of its initializers (tensor payloads are abstracted away). -/
structure OnnxModel where
  initializers : List OnnxTensor
deriving Repr, DecidableEq

/-- The scratch-directory filesystem around one export: the content of
the graph file at `onnx_path` (none when absent) and whether the
external-data companion file `onnx_path + ".data"` exists. -/
structure FsState where
  graphFile : Option OnnxModel
  dataFile : Bool
deriving Repr, DecidableEq

/-- The loop test at handler.py line 245: the tensor has a
`data_location` field and it equals `TensorProto.EXTERNAL`. -/
def tensorIsExternal (t : OnnxTensor) : Bool :=
  t.hasDataLocationField && t.dataLocation = .externalLoc

def hasExternalRef (m : OnnxModel) : Bool :=
  m.initializers.any tensorIsExternal

/-- Effect of `onnx.save(model, path, save_as_external_data=False)`:
every initializer is written inline, with no external data location. -/
def inlineAll (m : OnnxModel) : OnnxModel :=
  ⟨m.initializers.map fun _ => ⟨false, .defaultLoc⟩⟩

structure LogEntry where
  isWarning : Bool
  msg : String
deriving Repr, DecidableEq

def LogEntry.info (m : String) : LogEntry := ⟨false, m⟩
def LogEntry.warning (m : String) : LogEntry := ⟨true, m⟩

/-- Failure oracle for the external calls inside
`ensure_single_file_onnx`: whether each onnx / os call raises. -/
structure FsOracle where
  loadExternalFails : Bool
  loadFails : Bool
  saveFails : Bool
  removeFails : Bool
deriving Repr, DecidableEq

/-- The body of the `try` block of `ensure_single_file_onnx`
(handler.py lines 216-252).  On an exception, returns the error
together with the filesystem state and log at the point it was raised
(side effects performed before the raise persist). -/
def ensureSingleFileBody (s : FsState) (o : FsOracle) :
    Except (PyErr × FsState × List LogEntry) (FsState × List LogEntry) :=
  if s.dataFile then
    let log0 := [LogEntry.info "Found external data file",
                 LogEntry.info "Converting to single-file format..."]
    match s.graphFile with
    | none => .error (.otherError "onnx.load failed: file absent", s, log0)
    | some m =>
      if o.loadExternalFails then .error (.otherError "onnx.load failed", s, log0)
      else if o.saveFails then .error (.otherError "onnx.save failed", s, log0)
      else
        let s1 : FsState := { s with graphFile := some (inlineAll m) }
        if s1.dataFile then
          if o.removeFails then .error (.otherError "os.remove failed", s1, log0)
          else .ok ({ s1 with dataFile := false },
                    log0 ++ [LogEntry.info "Removed external data file",
                             LogEntry.info "Converted to single-file ONNX format"])
        else .ok (s1, log0 ++ [LogEntry.info "Converted to single-file ONNX format"])
  else
    match s.graphFile with
    | none => .error (.otherError "onnx.load failed: file absent", s, [])
    | some m =>
      if o.loadFails then .error (.otherError "onnx.load failed", s, [])
      else if hasExternalRef m then
        let log1 := [LogEntry.warning "Model references external data but file is missing!",
                     LogEntry.info "Attempting to re-save as single file..."]
        if o.saveFails then .error (.otherError "onnx.save failed", s, log1)
        else .ok ({ s with graphFile := some (inlineAll m) },
                  log1 ++ [LogEntry.info "Re-saved as single-file ONNX"])
      else .ok (s, [])

/-- handler.py `ensure_single_file_onnx`: runs the body and swallows any
exception, logging it as a warning (lines 254-256).  Returns the
resulting filesystem state and the log; it never raises. -/
def ensure_single_file_onnx (s : FsState) (o : FsOracle) : FsState × List LogEntry :=
  match ensureSingleFileBody s o with
  | .ok r => r
  | .error (e, s', log) =>
      (s', log ++ [LogEntry.warning ("Could not verify/convert ONNX format: " ++ errStr e)])

/- ============================================================
   export_onnx
   ============================================================ -/

/-- Oracle for the torch calls inside `export_onnx`: availability of the
modern exporter, the outcome of each external call, and the filesystem
state each successful save leaves behind.  The model, dummy input and
output path are abstracted into these outcomes. -/
structure TorchOracle where
  hasDynamoExport : Bool
  dynamoExportResult : Except PyErr Unit
  dynamoSaveResult : Except PyErr Unit
  dynamoSavedState : FsState
  hasUseExternalDataParam : Bool
  legacyExportResult : Except PyErr Unit
  legacySavedState : FsState
  fsOracle : FsOracle

/-- The legacy branch of `export_onnx` (handler.py lines 179-207):
`torch.onnx.export` with the fixed argument dictionary, the optional
`use_external_data_format=False` capability probe, then the single-file
normalization.  An exception from `torch.onnx.export` propagates. -/
def legacyExportPath (o : TorchOracle) (logs : List LogEntry) :
    List LogEntry × Except PyErr FsState :=
  let logs := logs ++ [LogEntry.info "Using torch.onnx.export() (legacy)"]
  let logs := if o.hasUseExternalDataParam
    then logs ++ [LogEntry.info "Set use_external_data_format=False"] else logs
  match o.legacyExportResult with
  | .error e => (logs, .error e)
  | .ok _ =>
      let (s', elog) := ensure_single_file_onnx o.legacySavedState o.fsOracle
      (logs ++ elog ++ [LogEntry.info "ONNX model exported via torch.onnx.export()"], .ok s')

/-- handler.py `export_onnx`: try `torch.onnx.dynamo_export` plus
`exported.save` when available, catching any exception from that whole
attempt with a warning and falling back to the legacy exporter;
otherwise go straight to the legacy exporter. -/
def export_onnx (o : TorchOracle) : List LogEntry × Except PyErr FsState :=
  let logs := [LogEntry.info "Starting ONNX export..."]
  if o.hasDynamoExport then
    let logs := logs ++ [LogEntry.info "Attempting torch.onnx.dynamo_export()"]
    match o.dynamoExportResult with
    | .error e =>
        legacyExportPath o (logs ++
          [LogEntry.warning ("dynamo_export() failed: " ++ errStr e ++ ". Falling back to legacy exporter.")])
    | .ok _ =>
        match o.dynamoSaveResult with
        | .error e =>
            legacyExportPath o (logs ++
              [LogEntry.warning ("dynamo_export() failed: " ++ errStr e ++ ". Falling back to legacy exporter.")])
        | .ok _ =>
            let (s', elog) := ensure_single_file_onnx o.dynamoSavedState o.fsOracle
            (logs ++ elog ++ [LogEntry.info "ONNX model saved via dynamo_export"], .ok s')
  else legacyExportPath o logs

/- ============================================================
   utils.load_class_from_file
   ============================================================ -/

/-- An instantiated model object (only its identity matters). -/
structure ModelInstance where
  token : Nat
deriving Repr, DecidableEq

/-- A module attribute as `load_class_from_file` inspects it: whether it
is callable, and the effect of calling it with keyword arguments. -/
structure PyAttr where
  callable : Bool
  construct : PyDict → Except PyErr ModelInstance

/-- A loaded Python module: its namespace. -/
structure PyModule where
  attrs : List (String × PyAttr)

/-- Oracle for the importlib calls inside `load_class_from_file`:
whether the file exists, whether `spec_from_file_location` returns a
spec, and the outcome of `exec_module` (the module namespace, or the
exception the executed code raised). -/
structure LoadEnv where
  fileExists : Bool
  specOk : Bool
  execResult : Except PyErr PyModule

/-- utils.py `load_class_from_file`.  The surrounding try/except only
logs and re-raises, so it is semantically transparent and not modelled.
`module_path` is accepted but, as in the source, never used. -/
def load_class_from_file (class_name module_path file_path : String)
    (env : LoadEnv) (kwargs : PyDict) : Except PyErr ModelInstance :=
  if !env.fileExists then
    .error (.fileNotFoundError ("File not found: " ++ file_path))
  else if !env.specOk then
    .error (.importError ("Unable to load spec for file: " ++ file_path))
  else
    match env.execResult with
    | .error e => .error e
    | .ok m =>
        match alistGet m.attrs class_name with
        | none => .error (.attributeError ("Class '" ++ class_name ++ "' not found in module " ++ file_path))
        | some a =>
            if !a.callable then .error (.typeError ("'" ++ class_name ++ "' is not a valid class."))
            else a.construct kwargs

/- ============================================================
   JSON values and the request object
   ============================================================ -/

/-- A parsed JSON value as `json.loads` returns it.  Numbers are kept as
integers: no claim involves a fractional JSON number. -/
inductive Json where
  | null
  | boolV (b : Bool)
  | numV (n : Int)
  | strV (s : String)
  | arr (xs : List Json)
  | obj (kvs : List (String × Json))

/-- Lookup in a parsed JSON object.  `json.loads` builds a dict in which
a duplicated key keeps its last value, hence the right-biased search. -/
def jsonGet : List (String × Json) → String → Option Json
  | [], _ => none
  | (k', v) :: rest, k =>
      match jsonGet rest k with
      | some r => some r
      | none => if k' = k then some v else none

/-- Python `req[k]` on a dict: KeyError when the key is absent. -/
def getItem (kvs : List (String × Json)) (k : String) : Except PyErr Json :=
  match jsonGet kvs k with
  | some v => .ok v
  | none => .error (.keyError k)

/- ============================================================
   handler.execute
   ============================================================ -/

/-- Environment configuration read at handler.py lines 19-22. -/
structure Config where
  endpoint : String
  secure : Bool

/-- Oracle for the external calls `execute` makes, in program order:
MinIO connectivity, the two downloads, the dynamic load, the torch
weight-loading and device placement, the export, the onnx validation,
and the upload. -/
structure ExecEnv where
  listBucketsResult : Except PyErr Unit
  fgetModelResult : Except PyErr Unit
  fgetWeightsResult : Except PyErr Unit
  loadEnv : LoadEnv
  torchPrepResult : Except PyErr Unit
  torchOracle : TorchOracle
  validateResult : Except PyErr Unit
  bucketExists : Bool
  makeBucketResult : Except PyErr Unit
  fputResult : Except PyErr Unit

/-- The success payload built at handler.py lines 131-136. -/
structure ExecResult where
  status : String
  message : String
  onnx_path : String
  download_url : String
deriving Repr, DecidableEq

/-- Models `urllib.parse.urljoin(base, rel)` for the one call site at
handler.py line 129, where `base` has the shape `scheme://host/` and
`rel` is `bucket/key`: when the relative part carries no scheme or
netloc prefix, no leading slash and no `.` or `..` path segment, and
neither part contains the whitespace characters `urlsplit` removes,
the join is plain concatenation. -/
def urljoin (base rel : String) : String := base ++ rel

/-- A key string for which the `urljoin` model above is exact: no slash
(so the key is a single path segment, never `.` or `..` after the
`.onnx` suffix is appended) and none of the characters `urlsplit`
strips. -/
def urlSafeKey (s : String) : Bool :=
  s.data.all fun c => !(c = '/' || c = '\t' || c = '\n' || c = '\r')

/-- An endpoint string (`host:port`) for which the `urljoin` model is
exact. -/
def urlSafeEndpoint (s : String) : Bool :=
  s.data.all fun c =>
    (48 ≤ c.toNat && c.toNat ≤ 57) || (97 ≤ c.toNat && c.toNat ≤ 122) ||
    (65 ≤ c.toNat && c.toNat ≤ 90) || c = '.' || c = ':' || c = '-'

/-- The `except S3Error` wrapper around the two downloads (handler.py
lines 86-93): an S3Error becomes FileNotFoundError, any other
exception propagates unchanged. -/
def mapS3 (e : PyErr) : PyErr :=
  match e with
  | .s3Error m => .fileNotFoundError ("Missing model or weights file: " ++ m)
  | e' => e'

/-- Extraction of a string path for `os.path.basename` (handler.py
lines 70-71): a non-string raises TypeError there. -/
def asPathStr (j : Json) : Except PyErr String :=
  match j with
  | .strV s => .ok s
  | _ => .error (.typeError "expected str, bytes or os.PathLike object")

/-- handler.py `execute`, step for step: field extraction (KeyError on a
missing key), argument parsing, basename, connectivity check (any
failure re-raised as ConnectionError), downloads (S3Error mapped to
FileNotFoundError), dynamic load, weight loading, export, validation,
bucket creation and upload, then the success payload.  Subscripting a
non-object request raises TypeError.  A non-string `model_class` first
fails at the `hasattr` call inside the dynamic load; it is modelled at
the point `model_class` is first consumed as a string, after the
downloads. -/
def execute (cfg : Config) (env : ExecEnv) (req : Json) : Except PyErr ExecResult :=
  match req with
  | .obj kvs => do
      let _pyPathJ ← getItem kvs "python_path"
      let _wPathJ ← getItem kvs "weights_path"
      let mcJ ← getItem kvs "model_class"
      let argsStr ← (match jsonGet kvs "args" with
        | none => Except.ok ""
        | some (.strV s) => Except.ok s
        | some _ => Except.error (.typeError "argument should be a string"))
      let dynArgs ← parse_dynamic_args argsStr
      let _inputShape := jsonGet kvs "input_shape"
      let pyPath ← asPathStr _pyPathJ
      let _wPath ← asPathStr _wPathJ
      let _ ← (match env.listBucketsResult with
        | .ok _ => Except.ok ()
        | .error e => Except.error
            (.connectionError ("Unable to connect to MinIO (" ++ cfg.endpoint ++ "): " ++ errStr e)))
      let _ ← (match env.fgetModelResult with
        | .ok _ => Except.ok ()
        | .error e => Except.error (mapS3 e))
      let _ ← (match env.fgetWeightsResult with
        | .ok _ => Except.ok ()
        | .error e => Except.error (mapS3 e))
      let mc ← (match mcJ with
        | .strV s => Except.ok s
        | _ => Except.error (.typeError "hasattr(): attribute name must be string"))
      let _inst ← load_class_from_file mc "" pyPath env.loadEnv dynArgs
      let _ ← env.torchPrepResult
      let _fs ← (export_onnx env.torchOracle).2
      let _ ← env.validateResult
      let _ ← (if env.bucketExists then Except.ok () else env.makeBucketResult)
      let _ ← env.fputResult
      let outputKey := mc ++ ".onnx"
      let scheme := if cfg.secure then "https" else "http"
      let url := urljoin (scheme ++ "://" ++ cfg.endpoint ++ "/") ("onnx/" ++ outputKey)
      Except.ok { status := "success",
                  message := "Model exported and validated successfully.",
                  onnx_path := outputKey,
                  download_url := url }
  | _ => .error (.typeError "request body is not a JSON object")

/- ============================================================
   handler.handle
   ============================================================ -/

/-- The body of an HTTP response: the serialized success payload, or the
failure object with its `error` string and optional `details`. -/
inductive RespBody where
  | success (r : ExecResult)
  | failure (error : String) (details : Option String)
deriving Repr, DecidableEq

structure HttpResponse where
  statusCode : Nat
  respBody : RespBody
deriving Repr, DecidableEq

/-- The `try` block of `handle` (handler.py lines 42-49): reject an
empty (or absent) body with ValueError, parse the JSON, run `execute`,
wrap the result with status 200.  `parseJson` is the behaviour of
`json.loads` on the strings of interest. -/
def handleTry (parseJson : String → Except PyErr Json) (cfg : Config)
    (env : ExecEnv) (body : String) : Except PyErr HttpResponse := do
  if body = "" then Except.error (.valueError "Empty request body")
  else do
    let req ← parseJson body
    let result ← execute cfg env req
    Except.ok { statusCode := 200, respBody := .success result }

/-- handler.py `handle`: the try block with its two handlers — a
`json.JSONDecodeError` becomes a 400 with an Invalid JSON body, every
other exception a 500 carrying `str(e)`.  A plain ValueError is not a
JSONDecodeError (the subclass relation goes the other way), so it falls
to the 500 branch. -/
def handle (parseJson : String → Except PyErr Json) (cfg : Config)
    (env : ExecEnv) (body : String) : HttpResponse :=
  match handleTry parseJson cfg env body with
  | .ok r => r
  | .error (.jsonDecodeError m) =>
      { statusCode := 400, respBody := .failure "Invalid JSON" (some m) }
  | .error e =>
      { statusCode := 500, respBody := .failure (errStr e) none }

/- ============================================================
   Concrete sample fixtures used by witnesses and counterexamples
   ============================================================ -/

def sampleFsOracle : FsOracle :=
  { loadExternalFails := false, loadFails := false, saveFails := false, removeFails := false }

def sampleFsOk : FsState :=
  { graphFile := some ⟨[⟨false, .defaultLoc⟩]⟩, dataFile := false }

def sampleTorch : TorchOracle :=
  { hasDynamoExport := true, dynamoExportResult := .ok (), dynamoSaveResult := .ok (),
    dynamoSavedState := sampleFsOk, hasUseExternalDataParam := true,
    legacyExportResult := .ok (), legacySavedState := sampleFsOk, fsOracle := sampleFsOracle }

def sampleLoadEnv : LoadEnv :=
  { fileExists := true, specOk := true,
    execResult := .ok ⟨[("Net", ⟨true, fun _ => .ok ⟨0⟩⟩)]⟩ }

def sampleCfg : Config := { endpoint := "172.16.6.62:9000", secure := false }

def sampleEnv : ExecEnv :=
  { listBucketsResult := .ok (), fgetModelResult := .ok (), fgetWeightsResult := .ok (),
    loadEnv := sampleLoadEnv, torchPrepResult := .ok (), torchOracle := sampleTorch,
    validateResult := .ok (), bucketExists := true, makeBucketResult := .ok (),
    fputResult := .ok () }

/-- A concrete stand-in for `json.loads`, faithful on the inputs it is
applied to: the empty object literal parses to the empty object and the
ill-formed strings used below raise JSONDecodeError. -/
def sampleParse : String → Except PyErr Json := fun s =>
  if s = "{}" then .ok (.obj [])
  else .error (.jsonDecodeError "Expecting value: line 1 column 1 (char 0)")

/- ============================================================
   Supporting lemmas
   ============================================================ -/

lemma hasExternalRef_inlineAll (m : OnnxModel) : hasExternalRef (inlineAll m) = false := by
  simp [hasExternalRef, inlineAll, tensorIsExternal, List.any_map, Function.comp]

lemma coercePass_mem {d : StrDict} {k : String} {v : PyObj}
    (h : (k, v) ∈ coercePass d) : ∃ raw, (k, raw) ∈ d ∧ v = coerceValue raw := by
  simp only [coercePass, List.mem_map] at h
  obtain ⟨⟨k', raw⟩, hm, he⟩ := h
  have h1 : k' = k := congrArg Prod.fst he
  have h2 : coerceValue raw = v := congrArg Prod.snd he
  exact ⟨raw, h1 ▸ hm, h2.symm⟩

lemma coerceValue_strVal {raw s : String} (h : coerceValue raw = .strVal s) :
    s = raw ∧ pyIsDigit raw = false ∧ pyFloatParse raw = none := by
  unfold coerceValue at h
  cases hd : pyIsDigit raw
  · cases hf : pyFloatParse raw
    · simp [hd, hf] at h
      exact ⟨h.symm, rfl, rfl⟩
    · simp [hd, hf] at h
  · simp [hd] at h

lemma coerceValue_intVal {raw : String} {n : Int} (h : coerceValue raw = .intVal n) :
    pyIsDigit raw = true ∧ n = pyIntOfDigits raw := by
  unfold coerceValue at h
  cases hd : pyIsDigit raw
  · cases hf : pyFloatParse raw <;> simp [hd, hf] at h
  · simp [hd] at h
    exact ⟨rfl, h.symm⟩

lemma coerceValue_floatVal {raw : String} {f : PyFloat} (h : coerceValue raw = .floatVal f) :
    pyIsDigit raw = false ∧ pyFloatParse raw = some f := by
  unfold coerceValue at h
  cases hd : pyIsDigit raw
  · cases hf : pyFloatParse raw <;> simp [hd, hf] at h
    exact ⟨rfl, h ▸ rfl⟩
  · simp [hd] at h

lemma collectArgs_error {toks : List String} (d : StrDict)
    (h : ∃ t ∈ toks, pySplitEq t = none) :
    ∃ msg, collectArgs toks d = .error (.valueError msg) := by
  induction toks generalizing d with
  | nil => simp at h
  | cons t ts ih =>
    obtain ⟨t', ht', hnone⟩ := h
    cases hsp : pySplitEq t with
    | none =>
      exact ⟨"Invalid argument format: '" ++ t ++ "'. Expected 'key=value'.",
        by simp [collectArgs, hsp]⟩
    | some kv =>
      rcases List.mem_cons.mp ht' with rfl | hmem
      · rw [hsp] at hnone; cases hnone
      · obtain ⟨msg, hm⟩ := ih (alistInsert d (pyStrip kv.1) (pyStrip kv.2)) ⟨t', hmem, hnone⟩
        exact ⟨msg, by simpa [collectArgs, hsp] using hm⟩

lemma alistGet_insert (d : StrDict) (k k' v : String) :
    alistGet (alistInsert d k' v) k = if k' = k then some v else alistGet d k := by
  induction d with
  | nil => simp [alistInsert, alistGet]
  | cons p rest ih =>
    obtain ⟨k0, v0⟩ := p
    by_cases h0 : k0 = k'
    · subst h0
      by_cases h1 : k0 = k <;> simp [alistInsert, alistGet, h1]
    · by_cases h1 : k' = k <;> by_cases h2 : k0 = k <;>
        simp_all [alistInsert, alistGet, ih]

/-- The key=value binding of the LAST token of the list that binds `k`
(keys and values stripped), if any. -/
def lastBinding : List String → String → Option String
  | [], _ => none
  | t :: ts, k =>
      match lastBinding ts k with
      | some v => some v
      | none =>
          match pySplitEq t with
          | some kv => if pyStrip kv.1 = k then some (pyStrip kv.2) else none
          | none => none

lemma collectArgs_ok {toks : List String}
    (hall : ∀ t ∈ toks, (pySplitEq t).isSome) (d : StrDict) :
    ∃ d', collectArgs toks d = .ok d' ∧
      ∀ k, alistGet d' k = (lastBinding toks k <|> alistGet d k) := by
  induction toks generalizing d with
  | nil => exact ⟨d, rfl, fun k => by simp [lastBinding]⟩
  | cons t ts ih =>
    cases hsp : pySplitEq t with
    | none =>
      have := hall t (by simp)
      rw [hsp] at this
      cases this
    | some kv =>
      obtain ⟨d', hd', hk⟩ :=
        ih (fun t' ht' => hall t' (List.mem_cons_of_mem _ ht'))
          (alistInsert d (pyStrip kv.1) (pyStrip kv.2))
      refine ⟨d', by simpa [collectArgs, hsp] using hd', fun k => ?_⟩
      rw [hk k, alistGet_insert]
      cases hlb : lastBinding ts k with
      | some v => simp [lastBinding, hsp, hlb]
      | none =>
        by_cases hkk : pyStrip kv.1 = k <;> simp [lastBinding, hsp, hlb, hkk]

lemma alistGet_coercePass (d : StrDict) (k : String) :
    alistGet (coercePass d) k = (alistGet d k).map coerceValue := by
  induction d with
  | nil => rfl
  | cons p rest ih =>
    obtain ⟨k0, v0⟩ := p
    show alistGet ((k0, coerceValue v0) :: coercePass rest) k = _
    by_cases h : k0 = k <;> simp [alistGet, h, ih]

lemma strAppend_assoc (a b c : String) : a ++ b ++ c = a ++ (b ++ c) := by
  cases a with
  | mk la =>
    cases b with
    | mk lb =>
      cases c with
      | mk lc => exact congrArg String.mk (List.append_assoc la lb lc)

lemma urljoin_shape (s host mc : String) :
    urljoin (s ++ "://" ++ host ++ "/") ("onnx/" ++ (mc ++ ".onnx")) =
      s ++ "://" ++ host ++ "/" ++ "onnx/" ++ mc ++ ".onnx" := by
  simp only [urljoin, strAppend_assoc]

lemma urljoin_shape2 (s host mc : String) :
    urljoin (s ++ "://" ++ host ++ "/") ("onnx/" ++ (mc ++ ".onnx")) =
      (s ++ "://" ++ host ++ "/") ++ "onnx/" ++ (mc ++ ".onnx") := by
  simp only [urljoin, strAppend_assoc]

lemma ebind_ok {ε α β : Type} (a : α) (k : α → Except ε β) :
    ((Except.ok a : Except ε α) >>= k) = k a := rfl

lemma ebind_error {ε α β : Type} (e : ε) (k : α → Except ε β) :
    ((Except.error e : Except ε α) >>= k) = Except.error e := rfl

lemma exceptBind_ok {ε α β : Type} {e : Except ε α} {k : α → Except ε β} {r : β}
    (h : (e >>= k) = Except.ok r) : ∃ a, e = Except.ok a ∧ k a = Except.ok r := by
  cases e with
  | error x => rw [ebind_error] at h; cases h
  | ok a => exact ⟨a, rfl, h⟩

/- ============================================================
   Claims
   ============================================================ -/

/-- C2 (amended): for every invocation whose request body is empty (or
absent, which the body-extraction defaults to the empty string), the
handler returns a 500-equivalent error response whose error string is
"Empty request body" — not the 400-equivalent malformed-JSON error the
claim states, because the ValueError raised for the empty body is not a
json.JSONDecodeError and is caught by the generic 500 branch. -/
theorem C2_empty_body_yields_500 (p : String → Except PyErr Json) (cfg : Config)
    (env : ExecEnv) :
    handle p cfg env "" =
      { statusCode := 500, respBody := .failure "Empty request body" none } := rfl

/-- C2 counterexample: at the concrete empty request body, with the
sample environment and a parse function faithful to json.loads, the
handler answers 500 with the ValueError message, not a 400
malformed-JSON error. -/
theorem C2_counterexample :
    handle sampleParse sampleCfg sampleEnv "" =
      { statusCode := 500, respBody := .failure "Empty request body" none } ∧
    (handle sampleParse sampleCfg sampleEnv "").statusCode ≠ 400 := by
  refine ⟨rfl, ?_⟩
  decide

/-- C3: in export_onnx, every failure of the modern (dynamo) export
attempt — whether dynamo_export itself or the subsequent save — is
caught, a warning naming the failure is logged, and the legacy exporter
runs; the whole export fails exactly when the modern path was
unavailable or failed and the legacy torch.onnx.export call itself
raises, and then it fails with that legacy error. -/
theorem C3_dynamo_never_fatal_legacy_propagates (o : TorchOracle) :
    (∀ e, (export_onnx o).2 = .error e ↔
      ((o.hasDynamoExport = false ∨ o.dynamoExportResult ≠ .ok () ∨
          o.dynamoSaveResult ≠ .ok ()) ∧
        o.legacyExportResult = .error e)) ∧
    (∀ e, o.hasDynamoExport = true →
      (o.dynamoExportResult = .error e ∨
        (o.dynamoExportResult = .ok () ∧ o.dynamoSaveResult = .error e)) →
      LogEntry.warning ("dynamo_export() failed: " ++ errStr e ++ ". Falling back to legacy exporter.")
        ∈ (export_onnx o).1) := by
  obtain ⟨hd, dr, dsr, dss, hu, lr, lss, fo⟩ := o
  constructor
  · intro e
    cases hd <;> cases dr <;> cases dsr <;> cases lr <;>
      simp_all [export_onnx, legacyExportPath]
  · intro e h1 h2
    cases hd <;> cases hu <;> cases dr <;> cases dsr <;> cases lr <;>
      simp_all [export_onnx, legacyExportPath]

def sampleTorchC3 : TorchOracle :=
  { sampleTorch with
    dynamoExportResult := .error (.otherError "boom"),
    legacyExportResult := .error (.otherError "op") }

/-- C3 witness: with the modern exporter present but failing and the
legacy exporter also failing, the export fails with the legacy error
and the log records the dynamo warning. -/
theorem C3_witness :
    (export_onnx sampleTorchC3).2 = .error (.otherError "op") ∧
    LogEntry.warning ("dynamo_export() failed: " ++ errStr (.otherError "boom") ++
        ". Falling back to legacy exporter.") ∈ (export_onnx sampleTorchC3).1 := by
  refine ⟨((C3_dynamo_never_fatal_legacy_propagates sampleTorchC3).1 (.otherError "op")).mpr
      ⟨Or.inr (Or.inl (by decide)), rfl⟩,
    (C3_dynamo_never_fatal_legacy_propagates sampleTorchC3).2 (.otherError "boom") rfl
      (Or.inl rfl)⟩

/-- C4: when the companion `.data` file exists and the load, save and
remove operations succeed, after ensure_single_file_onnx the companion
file is gone and the saved graph carries no external-data reference;
when no companion file exists and the graph has no external-data
metadata, the filesystem is left unchanged. -/
theorem C4_normalization_postconditions (s : FsState) (o : FsOracle) (m : OnnxModel) :
    (s.dataFile = true → s.graphFile = some m →
      o.loadExternalFails = false → o.saveFails = false → o.removeFails = false →
      (ensure_single_file_onnx s o).1.dataFile = false ∧
      ∃ m', (ensure_single_file_onnx s o).1.graphFile = some m' ∧ hasExternalRef m' = false) ∧
    (s.dataFile = false → s.graphFile = some m → hasExternalRef m = false →
      (ensure_single_file_onnx s o).1 = s) := by
  constructor
  · intro hd hg hl hs hr
    refine ⟨?_, inlineAll m, ?_, hasExternalRef_inlineAll m⟩ <;>
      simp [ensure_single_file_onnx, ensureSingleFileBody, hd, hg, hl, hs, hr]
  · intro hd hg hext
    cases hlf : o.loadFails <;>
      simp [ensure_single_file_onnx, ensureSingleFileBody, hd, hg, hext, hlf]

def sampleFsExt : FsState :=
  { graphFile := some ⟨[⟨true, .externalLoc⟩]⟩, dataFile := true }

/-- C4 witness: a concrete graph with an external companion is
normalized to a companion-free, self-contained state, and a concrete
clean graph is left untouched. -/
theorem C4_witness :
    ((ensure_single_file_onnx sampleFsExt sampleFsOracle).1.dataFile = false ∧
      ∃ m', (ensure_single_file_onnx sampleFsExt sampleFsOracle).1.graphFile = some m' ∧
        hasExternalRef m' = false) ∧
    (ensure_single_file_onnx sampleFsOk sampleFsOracle).1 = sampleFsOk :=
  ⟨(C4_normalization_postconditions sampleFsExt sampleFsOracle ⟨[⟨true, .externalLoc⟩]⟩).1
      rfl rfl rfl rfl rfl,
   (C4_normalization_postconditions sampleFsOk sampleFsOracle ⟨[⟨false, .defaultLoc⟩]⟩).2
      rfl rfl rfl⟩

/-- C7: load_class_from_file fails with FileNotFoundError when the file
is absent, AttributeError when the module loads but lacks the named
class, TypeError when the named attribute is not callable, and
otherwise returns the result of calling the class with the parsed
arguments as keyword arguments. -/
theorem C7_load_class_contract (cn mp fp : String) (env : LoadEnv) (kwargs : PyDict) :
    (env.fileExists = false →
      load_class_from_file cn mp fp env kwargs =
        .error (.fileNotFoundError ("File not found: " ++ fp))) ∧
    (∀ m, env.fileExists = true → env.specOk = true → env.execResult = .ok m →
      alistGet m.attrs cn = none →
      load_class_from_file cn mp fp env kwargs =
        .error (.attributeError ("Class '" ++ cn ++ "' not found in module " ++ fp))) ∧
    (∀ m a, env.fileExists = true → env.specOk = true → env.execResult = .ok m →
      alistGet m.attrs cn = some a → a.callable = false →
      load_class_from_file cn mp fp env kwargs =
        .error (.typeError ("'" ++ cn ++ "' is not a valid class."))) ∧
    (∀ m a, env.fileExists = true → env.specOk = true → env.execResult = .ok m →
      alistGet m.attrs cn = some a → a.callable = true →
      load_class_from_file cn mp fp env kwargs = a.construct kwargs) := by
  refine ⟨?_, ?_, ?_, ?_⟩
  · intro h; simp [load_class_from_file, h]
  · intro m h1 h2 h3 h4; simp [load_class_from_file, h1, h2, h3, h4]
  · intro m a h1 h2 h3 h4 h5; simp [load_class_from_file, h1, h2, h3, h4, h5]
  · intro m a h1 h2 h3 h4 h5; simp [load_class_from_file, h1, h2, h3, h4, h5]

def sampleMissingEnv : LoadEnv :=
  { fileExists := false, specOk := true, execResult := .ok ⟨[]⟩ }

/-- C7 witness: a concrete absent file fails with FileNotFoundError, and
a concrete present class is constructed with the given arguments. -/
theorem C7_witness :
    load_class_from_file "Net" "" "/tmp/m.py" sampleMissingEnv [] =
      .error (.fileNotFoundError ("File not found: " ++ "/tmp/m.py")) ∧
    load_class_from_file "Net" "" "/tmp/m.py" sampleLoadEnv [] = .ok ⟨0⟩ :=
  ⟨(C7_load_class_contract "Net" "" "/tmp/m.py" sampleMissingEnv []).1 rfl,
   (C7_load_class_contract "Net" "" "/tmp/m.py" sampleLoadEnv []).2.2.2
      ⟨[("Net", ⟨true, fun _ => .ok ⟨0⟩⟩)]⟩ ⟨true, fun _ => .ok ⟨0⟩⟩ rfl rfl rfl rfl rfl⟩

/-- C8: every exception inside the try block of ensure_single_file_onnx
is swallowed — the function returns the filesystem state reached when
the exception arose, with the failure logged as a warning — while, by
contrast, a failure of the legacy exporter in export_onnx propagates to
the caller. -/
theorem C8_ensure_failures_swallowed (s : FsState) (o : FsOracle) (tor : TorchOracle) :
    (∀ e s' log, ensureSingleFileBody s o = .error (e, s', log) →
      ensure_single_file_onnx s o =
        (s', log ++ [LogEntry.warning ("Could not verify/convert ONNX format: " ++ errStr e)])) ∧
    (∀ e, tor.hasDynamoExport = false → tor.legacyExportResult = .error e →
      (export_onnx tor).2 = .error e) := by
  constructor
  · intro e s' log h
    unfold ensure_single_file_onnx
    rw [h]
  · intro e h1 h2
    simp [export_onnx, legacyExportPath, h1, h2]

def sampleFsMissing : FsState := { graphFile := none, dataFile := false }

def sampleTorchC8 : TorchOracle :=
  { sampleTorch with
    hasDynamoExport := false,
    legacyExportResult := .error (.otherError "unsupported operator") }

/-- C5: parse_dynamic_args quote-aware-splits its input into key=value
tokens and coerces each value — a string of digits becomes an int, an
otherwise float-parseable string becomes a float, anything else stays a
string; concretely "a=1 b=2.5 c=hello" gives a as int 1, b as float 2.5
(mantissa 25, decimal exponent -1) and c as the string "hello", and the
empty string gives the empty mapping. -/
theorem C5_parse_dynamic_args_coercion :
    parse_dynamic_args "a=1 b=2.5 c=hello" =
      .ok [("a", .intVal 1), ("b", .floatVal (.finite 25 (-1))), ("c", .strVal "hello")] ∧
    parse_dynamic_args "" = .ok [] ∧
    (∀ args d k s, parse_dynamic_args args = .ok d → (k, PyObj.strVal s) ∈ d →
      pyIsDigit s = false ∧ pyFloatParse s = none) ∧
    (∀ args d k n, parse_dynamic_args args = .ok d → (k, PyObj.intVal n) ∈ d →
      ∃ raw, pyIsDigit raw = true ∧ n = pyIntOfDigits raw) ∧
    (∀ args d k f, parse_dynamic_args args = .ok d → (k, PyObj.floatVal f) ∈ d →
      ∃ raw, pyIsDigit raw = false ∧ pyFloatParse raw = some f) := by
  have hmem : ∀ args d (k : String) (v : PyObj), parse_dynamic_args args = .ok d →
      (k, v) ∈ d → ∃ raw, v = coerceValue raw := by
    intro args d k v h hm
    unfold parse_dynamic_args at h
    cases hs : shlexSplit args with
    | error e => simp [hs] at h
    | ok toks =>
      cases hc : collectArgs toks [] with
      | error e => simp [hs, hc] at h
      | ok d0 =>
        simp [hs, hc] at h
        subst h
        obtain ⟨raw, _, hv⟩ := coercePass_mem hm
        exact ⟨raw, hv⟩
  refine ⟨by decide, by decide, ?_, ?_, ?_⟩
  · intro args d k s h hm
    obtain ⟨raw, hv⟩ := hmem args d k _ h hm
    obtain ⟨rfl, h1, h2⟩ := coerceValue_strVal hv.symm
    exact ⟨h1, h2⟩
  · intro args d k n h hm
    obtain ⟨raw, hv⟩ := hmem args d k _ h hm
    obtain ⟨h1, h2⟩ := coerceValue_intVal hv.symm
    exact ⟨raw, h1, h2⟩
  · intro args d k f h hm
    obtain ⟨raw, hv⟩ := hmem args d k _ h hm
    obtain ⟨h1, h2⟩ := coerceValue_floatVal hv.symm
    exact ⟨raw, h1, h2⟩

/-- C5 witness: the coercion conjunct applied at the concrete input
"x=foo", whose value survives as a string precisely because it is
neither all digits nor float-parseable. -/
theorem C5_witness :
    pyIsDigit "foo" = false ∧ pyFloatParse "foo" = none :=
  C5_parse_dynamic_args_coercion.2.2.1 "x=foo" [("x", .strVal "foo")] "x" "foo"
    (by decide) (by simp)

/-- C6: for every argument string one of whose shlex tokens contains no
equals sign, parse_dynamic_args raises ValueError — it never returns a
mapping. -/
theorem C6_missing_eq_token_fails (args : String) (toks : List String)
    (hs : shlexSplit args = .ok toks) (h : ∃ t ∈ toks, pySplitEq t = none) :
    ∃ msg, parse_dynamic_args args = .error (.valueError msg) := by
  obtain ⟨msg, hm⟩ := collectArgs_error ([] : StrDict) h
  exact ⟨msg, by simp [parse_dynamic_args, hs, hm]⟩

/-- C6 witness: the concrete token "foo" has no equals sign and makes
the parse fail with ValueError. -/
theorem C6_witness : ∃ msg, parse_dynamic_args "foo" = .error (.valueError msg) :=
  C6_missing_eq_token_fails "foo" ["foo"] (by decide) ⟨"foo", by simp, by decide⟩

/-- C10: when every token has an equals sign the parse succeeds and each
key is bound to the coerced value of the LAST token with that key —
later duplicates silently override earlier ones, with no error. -/
theorem C10_duplicate_keys_last_wins (args : String) (toks : List String)
    (hs : shlexSplit args = .ok toks)
    (hall : ∀ t ∈ toks, (pySplitEq t).isSome) :
    ∃ d, parse_dynamic_args args = .ok d ∧
      ∀ k, alistGet d k = (lastBinding toks k).map coerceValue := by
  obtain ⟨d0, hd0, hk⟩ := collectArgs_ok hall []
  refine ⟨coercePass d0, by simp [parse_dynamic_args, hs, hd0], fun k => ?_⟩
  rw [alistGet_coercePass, hk k]
  cases lastBinding toks k <;> simp [alistGet]

/-- C10 witness: in "x=1 x=2" the key x is bound to the coerced value of
the last token, int 2. -/
theorem C10_witness :
    ∃ d, parse_dynamic_args "x=1 x=2" = .ok d ∧
      ∀ k, alistGet d k = (lastBinding ["x=1", "x=2"] k).map coerceValue :=
  C10_duplicate_keys_last_wins "x=1 x=2" ["x=1", "x=2"] (by decide) (by decide)

/-- C8 witness: a concrete failing verification load is swallowed with a
warning, and a concrete legacy-exporter failure propagates. -/
theorem C8_witness :
    ensure_single_file_onnx sampleFsMissing sampleFsOracle =
      (sampleFsMissing,
        [LogEntry.warning ("Could not verify/convert ONNX format: " ++
          errStr (.otherError "onnx.load failed: file absent"))]) ∧
    (export_onnx sampleTorchC8).2 = .error (.otherError "unsupported operator") :=
  ⟨(C8_ensure_failures_swallowed sampleFsMissing sampleFsOracle sampleTorchC8).1
      (.otherError "onnx.load failed: file absent") sampleFsMissing [] rfl,
   (C8_ensure_failures_swallowed sampleFsMissing sampleFsOracle sampleTorchC8).2
      (.otherError "unsupported operator") rfl rfl⟩

/-- C1 counterexample: the concrete body consisting of the empty JSON
object is valid JSON and lacks all three required fields, yet the
handler answers 500 (with the KeyError for python_path), not a
400-equivalent validation error as the claim states: no field
validation exists and KeyError is caught by the generic 500 branch. -/
theorem C1_counterexample :
    handle sampleParse sampleCfg sampleEnv "{}" =
      { statusCode := 500, respBody := .failure "'python_path'" none } ∧
    (handle sampleParse sampleCfg sampleEnv "{}").statusCode ≠ 400 := by
  refine ⟨by decide, by decide⟩

/-- C1 (amended): for every request whose body parses to a JSON object
missing one of python_path, weights_path or model_class, the handler
fails with a 500-equivalent response carrying the KeyError string of
the first missing field in extraction order. -/
theorem C1_missing_required_field_yields_500 (p : String → Except PyErr Json)
    (cfg : Config) (env : ExecEnv) (body : String) (kvs : List (String × Json))
    (hp : p body = .ok (.obj kvs)) (hbody : body ≠ "")
    (hmiss : jsonGet kvs "python_path" = none ∨ jsonGet kvs "weights_path" = none ∨
      jsonGet kvs "model_class" = none) :
    ∃ k, (k = "python_path" ∨ k = "weights_path" ∨ k = "model_class") ∧
      handle p cfg env body =
        { statusCode := 500, respBody := .failure ("'" ++ k ++ "'") none } := by
  cases hpy : jsonGet kvs "python_path" with
  | none =>
    refine ⟨"python_path", Or.inl rfl, ?_⟩
    have he : execute cfg env (.obj kvs) = .error (.keyError "python_path") := by
      simp [execute, getItem, hpy, ebind_ok, ebind_error]
    simp [handle, handleTry, hbody, hp, he, ebind_ok, ebind_error, errStr]
  | some j =>
    cases hw : jsonGet kvs "weights_path" with
    | none =>
      refine ⟨"weights_path", Or.inr (Or.inl rfl), ?_⟩
      have he : execute cfg env (.obj kvs) = .error (.keyError "weights_path") := by
        simp [execute, getItem, hpy, hw, ebind_ok, ebind_error]
      simp [handle, handleTry, hbody, hp, he, ebind_ok, ebind_error, errStr]
    | some j' =>
      cases hmc : jsonGet kvs "model_class" with
      | none =>
        refine ⟨"model_class", Or.inr (Or.inr rfl), ?_⟩
        have he : execute cfg env (.obj kvs) = .error (.keyError "model_class") := by
          simp [execute, getItem, hpy, hw, hmc, ebind_ok, ebind_error]
        simp [handle, handleTry, hbody, hp, he, ebind_ok, ebind_error, errStr]
      | some j'' => simp [hpy, hw, hmc] at hmiss

/-- C1 witness: with a parse producing an object lacking every required
field and a nonempty body, the handler answers 500 with the KeyError
for python_path. -/
theorem C1_witness :
    ∃ k, (k = "python_path" ∨ k = "weights_path" ∨ k = "model_class") ∧
      handle (fun _ => Except.ok (Json.obj [])) sampleCfg sampleEnv "x" =
        { statusCode := 500, respBody := .failure ("'" ++ k ++ "'") none } :=
  C1_missing_required_field_yields_500 (fun _ => Except.ok (Json.obj []))
    sampleCfg sampleEnv "x" [] rfl (by decide) (Or.inl rfl)

/-- C9: every successful run of execute yields status "success", an
output key equal to the model class name followed by ".onnx", and a
download URL that joins the endpoint's scheme and host with the output
bucket "onnx" and that key — in particular the URL contains the bucket
name and the class-derived key.  The url-safety hypotheses mark the
range in which the concatenation model of urljoin is exact. -/
theorem C9_success_shape (cfg : Config) (env : ExecEnv) (kvs : List (String × Json))
    (r : ExecResult) (mc : String)
    (hmc : jsonGet kvs "model_class" = some (.strV mc))
    (hsafe : urlSafeKey mc = true)
    (hhost : urlSafeEndpoint cfg.endpoint = true)
    (hok : execute cfg env (.obj kvs) = .ok r) :
    r.status = "success" ∧ r.onnx_path = mc ++ ".onnx" ∧
    r.download_url =
      (if cfg.secure then "https" else "http") ++ "://" ++ cfg.endpoint ++ "/" ++
        "onnx/" ++ mc ++ ".onnx" ∧
    ∃ pre, r.download_url = pre ++ "onnx/" ++ (mc ++ ".onnx") := by
  simp only [execute] at hok
  obtain ⟨pyJ, h1, hok⟩ := exceptBind_ok hok
  obtain ⟨wJ, h2, hok⟩ := exceptBind_ok hok
  obtain ⟨mcJ, h3, hok⟩ := exceptBind_ok hok
  obtain ⟨argsStr, h4, hok⟩ := exceptBind_ok hok
  obtain ⟨dargs, h5, hok⟩ := exceptBind_ok hok
  obtain ⟨pyP, h6, hok⟩ := exceptBind_ok hok
  obtain ⟨wP, h7, hok⟩ := exceptBind_ok hok
  obtain ⟨u1, h8, hok⟩ := exceptBind_ok hok
  obtain ⟨u2, h9, hok⟩ := exceptBind_ok hok
  obtain ⟨u3, h10, hok⟩ := exceptBind_ok hok
  obtain ⟨mcS, h11, hok⟩ := exceptBind_ok hok
  obtain ⟨inst, h12, hok⟩ := exceptBind_ok hok
  obtain ⟨u4, h13, hok⟩ := exceptBind_ok hok
  obtain ⟨fs, h14, hok⟩ := exceptBind_ok hok
  obtain ⟨u5, h15, hok⟩ := exceptBind_ok hok
  obtain ⟨u6, h16, hok⟩ := exceptBind_ok hok
  obtain ⟨u7, h17, hfin⟩ := exceptBind_ok hok
  have hmj : mcJ = .strV mc := by
    have hg : getItem kvs "model_class" = .ok (.strV mc) := by simp [getItem, hmc]
    rw [h3] at hg
    exact Except.ok.inj hg
  subst hmj
  have h11' : Except.ok mc = Except.ok mcS := h11
  have hms : mcS = mc := (Except.ok.inj h11').symm
  subst hms
  have hr := Except.ok.inj hfin
  subst hr
  refine ⟨rfl, rfl, ?_, ?_⟩
  · exact urljoin_shape (if cfg.secure then "https" else "http") cfg.endpoint mcS
  · exact ⟨(if cfg.secure then "https" else "http") ++ "://" ++ cfg.endpoint ++ "/",
      urljoin_shape2 (if cfg.secure then "https" else "http") cfg.endpoint mcS⟩

def sampleReq : Json :=
  .obj [("python_path", .strV "net.py"), ("weights_path", .strV "w.pth"),
        ("model_class", .strV "Net")]

def sampleResult : ExecResult :=
  { status := "success",
    message := "Model exported and validated successfully.",
    onnx_path := "Net.onnx",
    download_url := "http://172.16.6.62:9000/" ++ "onnx/Net.onnx" }

/-- C9 witness: a concrete fully successful request for class Net under
the sample configuration yields the stated key and URL. -/
theorem C9_witness :
    sampleResult.status = "success" ∧ sampleResult.onnx_path = "Net" ++ ".onnx" ∧
    sampleResult.download_url =
      (if sampleCfg.secure then "https" else "http") ++ "://" ++ sampleCfg.endpoint ++ "/" ++
        "onnx/" ++ "Net" ++ ".onnx" ∧
    ∃ pre, sampleResult.download_url = pre ++ "onnx/" ++ ("Net" ++ ".onnx") :=
  C9_success_shape sampleCfg sampleEnv
    [("python_path", .strV "net.py"), ("weights_path", .strV "w.pth"),
      ("model_class", .strV "Net")]
    sampleResult "Net" rfl (by decide) (by decide) (by decide)

end TorchToOnnx
